import Mathlib

/-!
Shallow embedding of the configuration-resolution core of `rnr`
(src/app.rs, src/config.rs): the command selector, the run-mode and
replace-mode resolvers, the dump and output policy resolvers, and the
configuration assembler, modelled over the resolved argument table that
the clap argument surface hands back to the core.
-/

namespace Rnr

/-- A compiled regular expression. The real engine is the external regex
crate; the core only stores the compiled value, so the model wraps the
accepted pattern text. -/
structure Regex where
  pattern : String
deriving DecidableEq

/-- Group-delimiter balance scan used by the model of the external regex
compiler: `d` counts currently open groups. -/
def groupsBalanced : List Char → Nat → Bool
  | [], d => d == 0
  | c :: cs, d =>
    if c = '(' then groupsBalanced cs (d + 1)
    else
      if c = ')' then
        match d with
        | 0 => false
        | e + 1 => groupsBalanced cs e
      else groupsBalanced cs d

/-- Modelled from the spec: `Regex::new` of the external regex crate (the
pattern-matching engine is an external collaborator, spec section 1 and
section 4.3; only its compile entry point is consumed by config.rs). The
spec requires that unparsable expressions such as "(" fail to compile
with a diagnostic while ordinary expressions, the empty one included,
compile; the model validates group-parenthesis balance and wraps the
pattern. -/
def Regex.new (s : String) : Except String Regex :=
  if groupsBalanced s.data 0 then Except.ok { pattern := s }
  else Except.error ("regex parse error: unbalanced group delimiter in pattern " ++ s)

/-- Modelled from the spec: the printer handle produced by the output
module, which is not part of this excerpt (spec section 4.5 and section 6
treat it as an opaque printer configuration). The three reachable values
are the silent printer, the colored printer and the uncolored printer. -/
inductive Printer
  | silent
  | colored
  | noColor
deriving DecidableEq

/-- Modelled from the spec: `printer.colors.error.paint` — styling wraps
the styled text in the error color escape sequences for the colored
printer and leaves it unchanged for the plain styles of the silent and
uncolored printers; it never drops the text. -/
def Printer.paintError : Printer → String → String
  | Printer.colored, s => "\x1b[31m" ++ s ++ "\x1b[0m"
  | _, s => s

/-- src/app.rs: from-file subcommand name. -/
def FROM_FILE_SUBCOMMAND : String := "from-file"

/-- src/app.rs: to-ascii subcommand name. -/
def TO_ASCII_SUBCOMMAND : String := "to-ascii"

/-- src/config.rs: application commands. -/
inductive AppCommand
  | Root
  | FromFile
  | ToASCII
deriving DecidableEq

/-- Single quote character, used by the selector's error message. -/
def sq : String := (Char.ofNat 39).toString

/-- src/config.rs, `AppCommand::from_str` (lines 65-72): the empty name
maps to Root, the two registered literals map to their variants, and any
other name is the non-registered-subcommand error naming the offender. -/
def AppCommand.from_str (name : String) : Except String AppCommand :=
  if name = "" then Except.ok AppCommand.Root
  else
    if name = FROM_FILE_SUBCOMMAND then Except.ok AppCommand.FromFile
    else
      if name = TO_ASCII_SUBCOMMAND then Except.ok AppCommand.ToASCII
      else Except.error ("Non-registered subcommand " ++ sq ++ name ++ sq)

/-- src/config.rs: run modes. -/
inductive RunMode
  | Simple (paths : List String)
  | Recursive (paths : List String) (max_depth : Option Nat) (hidden : Bool)
  | FromFile (path : String) (undo : Bool)
deriving DecidableEq

/-- Whether a run mode is the FromFile variant. -/
def RunMode.isFromFile : RunMode → Bool
  | RunMode.FromFile _ _ => true
  | _ => false

/-- src/config.rs: replace modes. -/
inductive ReplaceMode
  | RegExp (expression : Regex) (replacement : String) (limit : Nat)
  | ToASCII
deriving DecidableEq

/-- The resolved argument table the clap argument surface hands to the
core, restricted to the queries config.rs makes of it. Boolean fields
record `contains_id` answers for the corresponding id; `Option` fields
record `get_one`/`get_many` answers (`none` when the table holds no
value for the id). Defaults give the all-absent table. -/
structure ArgMatches where
  force : Bool := false
  noDump : Bool := false
  dump : Bool := false
  silent : Bool := false
  color : Option String := none
  backup : Bool := false
  includeDirs : Bool := false
  recursive : Bool := false
  maxDepthId : Bool := false
  maxDepth : Option Nat := none
  hidden : Bool := false
  undo : Bool := false
  dumpfile : Option String := none
  paths : Option (List String) := none
  expression : Option String := none
  replacement : Option String := none
  replaceLimit : Option Nat := none
deriving DecidableEq

/-- The environment probed by `detect_output_color`: whether stdout is an
interactive terminal, whether the platform is Windows (the cfg branch),
and whether enabling ANSI escape processing succeeds there. -/
structure Env where
  stdoutIsTerminal : Bool := false
  windows : Bool := false
  enableAnsiOk : Bool := true
deriving DecidableEq

/-- src/config.rs, `detect_output_color` (lines 200-218): colored when
stdout is a terminal (on Windows only when enabling ANSI support
succeeds), uncolored otherwise. -/
def detect_output_color (env : Env) : Printer :=
  if env.stdoutIsTerminal then
    if env.windows then
      if env.enableAnsiOk then Printer.colored else Printer.noColor
    else Printer.colored
  else Printer.noColor

/-- src/config.rs, `ArgumentParser::parse_run_mode` (lines 82-117): the
FromFile command reads DUMPFILE (empty string when the table holds none)
and the undo flag; otherwise the PATH(S) list (empty when the table
holds none) feeds Recursive — with max-depth read only when its id is
present, defaulting the value read to 0, and the hidden flag — when the
recursive flag is set, and Simple when it is not. -/
def parse_run_mode (m : ArgMatches) (command : AppCommand) : Except String RunMode :=
  match command with
  | AppCommand.FromFile =>
      Except.ok (RunMode.FromFile (m.dumpfile.getD ("")) m.undo)
  | _ =>
      if m.recursive then
        Except.ok (RunMode.Recursive (m.paths.getD [])
          (if m.maxDepthId then some (m.maxDepth.getD 0) else none) m.hidden)
      else
        Except.ok (RunMode.Simple (m.paths.getD []))

/-- src/config.rs, `ArgumentParser::parse_replace_mode` (lines 119-147):
the ToASCII command short-circuits to ToASCII; otherwise EXPRESSION
(empty string when the table holds none) is compiled — a compile failure
returns the styled bad-expression error carrying the compiler diagnostic
— and the RegExp payload takes REPLACEMENT (empty string when the table
holds none) and the replace-limit value (0 when the table holds none). -/
def parse_replace_mode (m : ArgMatches) (printer : Printer) (command : AppCommand) :
    Except String ReplaceMode :=
  match command with
  | AppCommand.ToASCII => Except.ok ReplaceMode.ToASCII
  | _ =>
      match Regex.new (m.expression.getD ("")) with
      | Except.error err =>
          Except.error (printer.paintError ("Error: ") ++ "Bad expression provided\n\n" ++
            printer.paintError err)
      | Except.ok expression =>
          Except.ok (ReplaceMode.RegExp expression (m.replacement.getD (""))
            (m.replaceLimit.getD 0))

/-- src/config.rs, lines 162-167: dump defaults — write in force mode
unless no-dump is present, and in dry-run mode only when dump is
present. -/
def resolve_dump (m : ArgMatches) : Bool :=
  if m.force then ! m.noDump else m.dump

/-- src/config.rs, lines 169-177: the silent flag selects the silent
printer; otherwise the color value (defaulted to auto) selects colored
for always, uncolored for never, and the terminal probe for anything
else. -/
def resolve_printer (m : ArgMatches) (env : Env) : Printer :=
  if m.silent then Printer.silent
  else
    if m.color.getD ("auto") = "always" then Printer.colored
    else
      if m.color.getD ("auto") = "never" then Printer.noColor
      else detect_output_color env

/-- src/config.rs: the assembled configuration. -/
structure Config where
  force : Bool
  backup : Bool
  dirs : Bool
  dump : Bool
  run_mode : RunMode
  replace_mode : ReplaceMode
  printer : Printer
deriving DecidableEq

/-- The raw input to `parse_arguments`: the optional sub-command name and
its argument table, and the root argument table (`matches.subcommand()`
and the top-level matches). -/
structure RawInput where
  subcommand : Option (String × ArgMatches) := none
  rootMatches : ArgMatches := {}
deriving DecidableEq

/-- The argument table `parse_arguments` consults: the sub-command's
table when a sub-command is present, the root table otherwise
(src/config.rs lines 154-160). -/
def RawInput.selected (input : RawInput) : ArgMatches :=
  match input.subcommand with
  | some (_, sub) => sub
  | none => input.rootMatches

/-- src/config.rs, `parse_arguments` (lines 151-197): select the command
from the sub-command name (Root when absent), resolve the dump policy
and the printer, resolve the run mode then the replace mode — aborting
on the first resolver error — and assemble the configuration from the
flat force, backup and include-dirs flags plus the resolved parts. -/
def parse_arguments (input : RawInput) (env : Env) : Except String Config :=
  match (match input.subcommand with
         | some (name, _) => AppCommand.from_str name
         | none => Except.ok AppCommand.Root) with
  | Except.error e => Except.error e
  | Except.ok command =>
      match parse_run_mode input.selected command with
      | Except.error e => Except.error e
      | Except.ok run_mode =>
          match parse_replace_mode input.selected (resolve_printer input.selected env) command with
          | Except.error e => Except.error e
          | Except.ok replace_mode =>
              Except.ok
                { force := input.selected.force
                  backup := input.selected.backup
                  dirs := input.selected.includeDirs
                  dump := resolve_dump input.selected
                  run_mode := run_mode
                  replace_mode := replace_mode
                  printer := resolve_printer input.selected env }

/-- The section 4.4 dump-policy truth table of the spec, row for row:
this definition follows the spec's words and is compared against the
dump field assembled by the source's `parse_arguments`. -/
def resolve_dump_spec (force no_dump dump : Bool) : Bool :=
  if force then
    if no_dump then false else true
  else
    if dump then true else false

/-- src/app.rs, lines 102-111: the replace-limit option is declared with
default value 1, so the resolved table always holds a value for it —
the user's when one was given on the command line, 1 otherwise. -/
def replace_limit_surface (user : Option Nat) : Option Nat :=
  some (user.getD 1)

/-- A clap-stored option value carries the concrete type its declared
value parser produced; a typed read (`get_one` at some type) returns the
value only when the stored type matches, and aborts on a mismatch
(clap's Downcast matches-error, raised in release builds too). -/
inductive ClapValue
  | i64Val (n : Int)
  | usizeVal (n : Nat)
deriving DecidableEq

/-- src/app.rs, line 75: the max-depth option is declared with
`RangedI64ValueParser::<i64>`, so a present max-depth value is stored
i64-typed in the table. -/
def maxDepthStored (n : Int) : ClapValue := ClapValue.i64Val n

/-- clap's `ArgMatches::get_one::<usize>`, the typed read src/config.rs
line 102 performs on max-depth: the value when it is usize-typed, and
`none` — modelling the Downcast abort — for any other stored type. -/
def get_one_usize : ClapValue → Option Nat
  | ClapValue.usizeVal n => some n
  | _ => none

/-- C1: over every raw input that assembles to a configuration, the dump
field equals the section 4.4 truth table applied to the consulted
table's force, no-dump and dump entries: force set and no-dump set give
false; force set and no-dump unset give true whatever the dump flag;
force unset gives the dump flag, so true when dump is set and false when
it is unset. -/
theorem dump_policy_truth_table (input : RawInput) (env : Env) (c : Config)
    (h : parse_arguments input env = Except.ok c) :
    c.dump = resolve_dump_spec input.selected.force input.selected.noDump input.selected.dump := by
  unfold parse_arguments at h
  split at h
  · exact absurd h (by simp)
  · split at h
    · exact absurd h (by simp)
    · split at h
      · exact absurd h (by simp)
      · simp only [Except.ok.injEq] at h
        subst h
        show resolve_dump input.selected = _
        unfold resolve_dump resolve_dump_spec
        cases input.selected.force <;> cases input.selected.noDump <;>
          cases input.selected.dump <;> rfl

/-- C1 witness: a root invocation with only the force flag assembles,
and its dump field is the truth-table value for (true, false, false),
namely true. -/
theorem dump_policy_truth_table_witness :
    parse_arguments { rootMatches := { force := true } } {} = Except.ok
      { force := true, backup := false, dirs := false, dump := true,
        run_mode := RunMode.Simple [],
        replace_mode := ReplaceMode.RegExp { pattern := "" } "" 0,
        printer := Printer.noColor } ∧
    (true : Bool) = resolve_dump_spec true false false :=
  ⟨rfl, dump_policy_truth_table { rootMatches := { force := true } } {} _ rfl⟩

/-- C2: the command selector maps the empty name to Root, the from-file
literal to FromFile and the to-ascii literal to ToASCII, and every other
non-empty string to the non-registered-subcommand error that names the
offending sub-command; it is a total function on strings. -/
theorem command_selector_spec :
    AppCommand.from_str ("") = Except.ok AppCommand.Root ∧
    AppCommand.from_str (FROM_FILE_SUBCOMMAND) = Except.ok AppCommand.FromFile ∧
    AppCommand.from_str (TO_ASCII_SUBCOMMAND) = Except.ok AppCommand.ToASCII ∧
    ∀ s : String, s ≠ "" → s ≠ FROM_FILE_SUBCOMMAND → s ≠ TO_ASCII_SUBCOMMAND →
      AppCommand.from_str s = Except.error ("Non-registered subcommand " ++ sq ++ s ++ sq) := by
  refine ⟨rfl, rfl, rfl, ?_⟩
  intro s h1 h2 h3
  unfold AppCommand.from_str
  rw [if_neg h1, if_neg h2, if_neg h3]

/-- C2 witness: an unregistered name yields the error naming it. -/
theorem command_selector_spec_witness :
    AppCommand.from_str ("nope") =
      Except.error ("Non-registered subcommand " ++ sq ++ "nope" ++ sq) :=
  command_selector_spec.2.2.2 ("nope") (by decide) (by decide) (by decide)

/-- C3: whenever the run-mode resolver returns a mode, that mode is the
FromFile variant exactly when the command is FromFile — so FromFile
invocations never get Simple or Recursive, and Root or ToASCII
invocations never get FromFile. -/
theorem run_mode_variant_iff_command (m : ArgMatches) (cmd : AppCommand) (rm : RunMode)
    (h : parse_run_mode m cmd = Except.ok rm) :
    rm.isFromFile = true ↔ cmd = AppCommand.FromFile := by
  cases cmd with
  | FromFile =>
      simp only [parse_run_mode, Except.ok.injEq] at h
      subst h
      simp [RunMode.isFromFile]
  | Root =>
      unfold parse_run_mode at h
      split at h
      · simp_all
      · split at h <;> simp only [Except.ok.injEq] at h <;> subst h <;>
          simp [RunMode.isFromFile]
  | ToASCII =>
      unfold parse_run_mode at h
      split at h
      · simp_all
      · split at h <;> simp only [Except.ok.injEq] at h <;> subst h <;>
          simp [RunMode.isFromFile]

/-- C3 witness: the FromFile command resolves to the FromFile variant. -/
theorem run_mode_variant_iff_command_witness :
    (RunMode.FromFile ("") false).isFromFile = true ↔
      AppCommand.FromFile = AppCommand.FromFile :=
  run_mode_variant_iff_command {} AppCommand.FromFile (RunMode.FromFile ("") false) rfl

/-- C4: when the table's replace-limit entry is what the declared surface
produces — the user value if one was given, the default 1 otherwise —
an assembled RegExp replace mode has limit 1 when the option was absent
from the command line, and limit n (0 included, meaning unbounded
downstream) when the user gave n. -/
theorem replace_limit_resolution (m : ArgMatches) (printer : Printer) (cmd : AppCommand)
    (user : Option Nat) (e : Regex) (r : String) (lim : Nat)
    (hsurf : m.replaceLimit = replace_limit_surface user)
    (h : parse_replace_mode m printer cmd = Except.ok (ReplaceMode.RegExp e r lim)) :
    (user = none → lim = 1) ∧ ∀ n : Nat, user = some n → lim = n := by
  have hlim : lim = user.getD 1 := by
    cases cmd with
    | ToASCII => simp [parse_replace_mode] at h
    | Root =>
        unfold parse_replace_mode at h
        split at h
        · simp_all
        · split at h
          · simp_all
          · simp only [Except.ok.injEq, ReplaceMode.RegExp.injEq] at h
            rw [← h.2.2, hsurf]
            rfl
    | FromFile =>
        unfold parse_replace_mode at h
        split at h
        · simp_all
        · split at h
          · simp_all
          · simp only [Except.ok.injEq, ReplaceMode.RegExp.injEq] at h
            rw [← h.2.2, hsurf]
            rfl
  constructor
  · intro hu; rw [hlim, hu]; rfl
  · intro n hu; rw [hlim, hu]; rfl

/-- C4 witness: with no user value the surface supplies 1 and the
assembled limit is 1. -/
theorem replace_limit_resolution_witness :
    ({ replaceLimit := some 1 } : ArgMatches).replaceLimit = replace_limit_surface none ∧
    parse_replace_mode { replaceLimit := some 1 } Printer.noColor AppCommand.Root =
      Except.ok (ReplaceMode.RegExp { pattern := "" } "" 1) ∧
    (none = (none : Option Nat) → 1 = 1) ∧ ∀ n : Nat, (none : Option Nat) = some n → 1 = n :=
  ⟨rfl, rfl,
    replace_limit_resolution { replaceLimit := some 1 } Printer.noColor AppCommand.Root
      none { pattern := "" } "" 1 rfl rfl⟩

/-- C5: for a command other than ToASCII, when the EXPRESSION entry fails
to compile the replace-mode resolver returns the bad-expression error
with the compiler diagnostic embedded in it verbatim, and never returns
an ok value; moreover the expression "(" fails to compile. -/
theorem invalid_pattern_never_regexp (m : ArgMatches) (printer : Printer) (cmd : AppCommand)
    (err : String)
    (hcmd : cmd ≠ AppCommand.ToASCII)
    (hc : Regex.new (m.expression.getD ("")) = Except.error err) :
    (∃ a b : String, parse_replace_mode m printer cmd = Except.error (a ++ err ++ b)) ∧
    (∀ r : ReplaceMode, parse_replace_mode m printer cmd ≠ Except.ok r) ∧
    (∃ msg : String, Regex.new ("(") = Except.error msg) := by
  have hmsg : parse_replace_mode m printer cmd =
      Except.error (printer.paintError ("Error: ") ++ "Bad expression provided\n\n" ++
        printer.paintError err) := by
    cases cmd with
    | ToASCII => exact absurd rfl hcmd
    | Root => unfold parse_replace_mode; rw [hc]
    | FromFile => unfold parse_replace_mode; rw [hc]
  refine ⟨?_, ?_, ⟨_, rfl⟩⟩
  · cases printer with
    | colored =>
        refine ⟨Printer.paintError Printer.colored ("Error: ") ++
          "Bad expression provided\n\n" ++ "\x1b[31m", "\x1b[0m", ?_⟩
        rw [hmsg]
        simp [Printer.paintError, ← String.append_assoc]
    | silent =>
        refine ⟨Printer.paintError Printer.silent ("Error: ") ++
          "Bad expression provided\n\n", "", ?_⟩
        rw [hmsg]
        simp [Printer.paintError, ← String.append_assoc]
    | noColor =>
        refine ⟨Printer.paintError Printer.noColor ("Error: ") ++
          "Bad expression provided\n\n", "", ?_⟩
        rw [hmsg]
        simp [Printer.paintError, ← String.append_assoc]
  · intro r hr
    rw [hmsg] at hr
    exact absurd hr (by simp)

/-- C5 witness: the expression "(" fails to compile and the Root-command
replace-mode resolution carries its diagnostic in an error, never an ok
value. -/
theorem invalid_pattern_never_regexp_witness :
    (AppCommand.Root ≠ AppCommand.ToASCII) ∧
    Regex.new (({ expression := some ("(") } : ArgMatches).expression.getD ("")) =
      Except.error ("regex parse error: unbalanced group delimiter in pattern (") ∧
    ((∃ a b : String,
        parse_replace_mode { expression := some ("(") } Printer.noColor AppCommand.Root =
          Except.error (a ++ "regex parse error: unbalanced group delimiter in pattern (" ++ b)) ∧
      (∀ r : ReplaceMode,
        parse_replace_mode { expression := some ("(") } Printer.noColor AppCommand.Root ≠
          Except.ok r) ∧
      (∃ msg : String, Regex.new ("(") = Except.error msg)) :=
  ⟨by decide, rfl,
    invalid_pattern_never_regexp { expression := some ("(") } Printer.noColor AppCommand.Root
      ("regex parse error: unbalanced group delimiter in pattern (") (by decide) rfl⟩

/-- C6: the typed max-depth read config.rs line 102 performs
(`get_one::<usize>`) fails by Downcast on every stored max-depth value,
because app.rs line 75 declares the option with an i64-producing value
parser — so a present max-depth aborts the program instead of reaching
`Some(n)`; the same read would succeed for every usize-typed stored
value, which is what the declaration was evidently meant to produce. -/
theorem max_depth_typed_read_mismatch :
    (∀ n : Int, get_one_usize (maxDepthStored n) = none) ∧
    get_one_usize (maxDepthStored 2) = none ∧
    (∀ n : Nat, get_one_usize (ClapValue.usizeVal n) = some n) :=
  ⟨fun _ => rfl, rfl, fun _ => rfl⟩

/-- C7: the silent flag forces the silent printer whatever the color
option holds; otherwise color always gives the colored printer, never
gives the uncolored printer, and any other value — the defaulted auto
included — hands the decision to the terminal/platform probe; the
assembled configuration's printer is exactly this resolution. -/
theorem output_policy_resolution (m : ArgMatches) (env : Env) (input : RawInput) :
    (m.silent = true → resolve_printer m env = Printer.silent) ∧
    (m.silent = false → m.color.getD ("auto") = "always" →
      resolve_printer m env = Printer.colored) ∧
    (m.silent = false → m.color.getD ("auto") = "never" →
      resolve_printer m env = Printer.noColor) ∧
    (m.silent = false → m.color.getD ("auto") ≠ "always" → m.color.getD ("auto") ≠ "never" →
      resolve_printer m env = detect_output_color env) ∧
    (∀ c : Config, parse_arguments input env = Except.ok c →
      c.printer = resolve_printer input.selected env) := by
  refine ⟨?_, ?_, ?_, ?_, ?_⟩
  · intro hs; simp [resolve_printer, hs]
  · intro hs ha; simp [resolve_printer, hs, ha]
  · intro hs hn; simp [resolve_printer, hs, hn]
  · intro hs h1 h2; simp [resolve_printer, hs, h1, h2]
  · intro c h
    unfold parse_arguments at h
    split at h
    · simp_all
    · split at h
      · simp_all
      · split at h
        · simp_all
        · simp only [Except.ok.injEq] at h
          subst h
          rfl

/-- C7 witness: silent set together with color always still resolves to
the silent printer. -/
theorem output_policy_resolution_witness :
    resolve_printer { silent := true, color := some ("always") } {} = Printer.silent :=
  (output_policy_resolution { silent := true, color := some ("always") } {} {}).1 rfl

/-- Helper: the ok value of the replace-mode resolver does not depend on
the printer (the printer only styles the error message). -/
theorem parse_replace_mode_ok_printer_free (m : ArgMatches) (p q : Printer)
    (cmd : AppCommand) (r : ReplaceMode)
    (h : parse_replace_mode m p cmd = Except.ok r) :
    parse_replace_mode m q cmd = Except.ok r := by
  cases cmd with
  | ToASCII => simpa [parse_replace_mode] using h
  | Root =>
      rcases hR : Regex.new (m.expression.getD ("")) with e | ex
      · simp [parse_replace_mode, hR] at h
      · simp only [parse_replace_mode, hR] at h ⊢
        exact h
  | FromFile =>
      rcases hR : Regex.new (m.expression.getD ("")) with e | ex
      · simp [parse_replace_mode, hR] at h
      · simp only [parse_replace_mode, hR] at h ⊢
        exact h

/-- C8: configuration assembly is deterministic in the raw input — for
the same raw input under two environments, an assembly that succeeds
under the first succeeds under the second with the same force, backup,
include-dirs and dump booleans and the same run-mode and replace-mode
payloads (only the printer may follow the environment probe), and equal
environments give identical results. -/
theorem assembly_deterministic (input : RawInput) (env₁ env₂ : Env) :
    (∀ c₁ : Config, parse_arguments input env₁ = Except.ok c₁ →
      ∃ c₂ : Config, parse_arguments input env₂ = Except.ok c₂ ∧
        c₁.force = c₂.force ∧ c₁.backup = c₂.backup ∧ c₁.dirs = c₂.dirs ∧
        c₁.dump = c₂.dump ∧ c₁.run_mode = c₂.run_mode ∧
        c₁.replace_mode = c₂.replace_mode) ∧
    (env₁ = env₂ → parse_arguments input env₁ = parse_arguments input env₂) := by
  constructor
  · intro c₁ h₁
    rcases hc : (match input.subcommand with
      | some (name, _) => AppCommand.from_str name
      | none => Except.ok AppCommand.Root) with e | command
    · simp [parse_arguments, hc] at h₁
    · rcases hrm : parse_run_mode input.selected command with e | rm
      · simp [parse_arguments, hc, hrm] at h₁
      · rcases hpm : parse_replace_mode input.selected
            (resolve_printer input.selected env₁) command with e | pm
        · simp [parse_arguments, hc, hrm, hpm] at h₁
        · have hpm₂ : parse_replace_mode input.selected
              (resolve_printer input.selected env₂) command = Except.ok pm :=
            parse_replace_mode_ok_printer_free input.selected _ _ command pm hpm
          simp only [parse_arguments, hc, hrm, hpm, Except.ok.injEq] at h₁
          refine ⟨{ force := input.selected.force, backup := input.selected.backup,
                    dirs := input.selected.includeDirs, dump := resolve_dump input.selected,
                    run_mode := rm, replace_mode := pm,
                    printer := resolve_printer input.selected env₂ }, ?_, ?_⟩
          · simp only [parse_arguments, hc, hrm, hpm₂]
          · subst h₁
            exact ⟨rfl, rfl, rfl, rfl, rfl, rfl⟩
  · intro h
    rw [h]

/-- C8 witness: the empty raw input assembles under the non-terminal
environment, and under a terminal environment it assembles to the same
configuration apart from the printer. -/
theorem assembly_deterministic_witness :
    parse_arguments {} {} = Except.ok
      { force := false, backup := false, dirs := false, dump := false,
        run_mode := RunMode.Simple [],
        replace_mode := ReplaceMode.RegExp { pattern := "" } "" 0,
        printer := Printer.noColor } ∧
    ∃ c₂ : Config, parse_arguments {} { stdoutIsTerminal := true } = Except.ok c₂ ∧
      false = c₂.force ∧ false = c₂.backup ∧ false = c₂.dirs ∧ false = c₂.dump ∧
      RunMode.Simple [] = c₂.run_mode ∧
      ReplaceMode.RegExp { pattern := "" } "" 0 = c₂.replace_mode :=
  ⟨rfl, (assembly_deterministic {} {} { stdoutIsTerminal := true }).1
    { force := false, backup := false, dirs := false, dump := false,
      run_mode := RunMode.Simple [],
      replace_mode := ReplaceMode.RegExp { pattern := "" } "" 0,
      printer := Printer.noColor } rfl⟩

/-- C9: the run-mode resolver always returns an ok mode; in particular a
table with no PATH(S) entries (and the recursive flag unset) yields
Simple with the empty path list, and the FromFile command with no
DUMPFILE entry yields FromFile with the empty-string path. -/
theorem run_mode_infallible (m : ArgMatches) (cmd : AppCommand) :
    (∃ rm : RunMode, parse_run_mode m cmd = Except.ok rm) ∧
    (cmd ≠ AppCommand.FromFile → m.recursive = false → m.paths = none →
      parse_run_mode m cmd = Except.ok (RunMode.Simple [])) ∧
    (m.dumpfile = none →
      parse_run_mode m AppCommand.FromFile = Except.ok (RunMode.FromFile ("") m.undo)) := by
  refine ⟨?_, ?_, ?_⟩
  · cases cmd with
    | FromFile => exact ⟨RunMode.FromFile (m.dumpfile.getD ("")) m.undo, rfl⟩
    | Root =>
        cases hr : m.recursive with
        | false => exact ⟨RunMode.Simple (m.paths.getD []), by simp [parse_run_mode, hr]⟩
        | true =>
            exact ⟨RunMode.Recursive (m.paths.getD [])
              (if m.maxDepthId then some (m.maxDepth.getD 0) else none) m.hidden,
              by simp [parse_run_mode, hr]⟩
    | ToASCII =>
        cases hr : m.recursive with
        | false => exact ⟨RunMode.Simple (m.paths.getD []), by simp [parse_run_mode, hr]⟩
        | true =>
            exact ⟨RunMode.Recursive (m.paths.getD [])
              (if m.maxDepthId then some (m.maxDepth.getD 0) else none) m.hidden,
              by simp [parse_run_mode, hr]⟩
  · intro h1 h2 h3
    cases cmd with
    | FromFile => exact absurd rfl h1
    | Root => simp [parse_run_mode, h2, h3]
    | ToASCII => simp [parse_run_mode, h2, h3]
  · intro h
    simp [parse_run_mode, h]

/-- C9 witness: the all-absent table under the Root command resolves to
Simple with the empty path list. -/
theorem run_mode_infallible_witness :
    parse_run_mode {} AppCommand.Root = Except.ok (RunMode.Simple []) :=
  (run_mode_infallible {} AppCommand.Root).2.1 (by decide) rfl rfl

/-- C10: the FromFile command does not short-circuit the replace-mode
resolver — with EXPRESSION and REPLACEMENT absent it compiles the empty
string, which succeeds, so from-file resolution and the assembled
from-file configuration carry the RegExp variant with empty expression
and empty replacement (and the table's replace-limit value, 0 when the
table holds none) rather than an error or a dedicated no-op variant. -/
theorem from_file_replace_mode_empty_regexp (m : ArgMatches) (printer : Printer)
    (he : m.expression = none) (hr : m.replacement = none) :
    parse_replace_mode m printer AppCommand.FromFile =
      Except.ok (ReplaceMode.RegExp { pattern := "" } "" (m.replaceLimit.getD 0)) ∧
    (∀ (input : RawInput) (env : Env) (c : Config),
      input.subcommand = some (FROM_FILE_SUBCOMMAND, m) →
      parse_arguments input env = Except.ok c →
      c.replace_mode = ReplaceMode.RegExp { pattern := "" } "" (m.replaceLimit.getD 0)) := by
  have hre : Regex.new ("") = Except.ok ({ pattern := "" } : Regex) := rfl
  have hall : ∀ p : Printer, parse_replace_mode m p AppCommand.FromFile =
      Except.ok (ReplaceMode.RegExp { pattern := "" } "" (m.replaceLimit.getD 0)) := by
    intro p
    simp [parse_replace_mode, he, hr, hre]
  refine ⟨hall printer, ?_⟩
  intro input env c hsub h
  have hsel : input.selected = m := by simp [RawInput.selected, hsub]
  have hcmd : AppCommand.from_str FROM_FILE_SUBCOMMAND = Except.ok AppCommand.FromFile := rfl
  rcases hrm : parse_run_mode m AppCommand.FromFile with e | rm
  · simp [parse_run_mode] at hrm
  · simp only [parse_arguments, hsub, hsel, hcmd, hrm, hall, Except.ok.injEq] at h
    subst h
    rfl

/-- C10 witness: the all-absent from-file table resolves and assembles to
the RegExp variant with empty expression, empty replacement and limit
0. -/
theorem from_file_replace_mode_empty_regexp_witness :
    parse_replace_mode {} Printer.noColor AppCommand.FromFile =
      Except.ok (ReplaceMode.RegExp { pattern := "" } "" 0) ∧
    (∀ (input : RawInput) (env : Env) (c : Config),
      input.subcommand = some (FROM_FILE_SUBCOMMAND, ({} : ArgMatches)) →
      parse_arguments input env = Except.ok c →
      c.replace_mode = ReplaceMode.RegExp { pattern := "" } "" 0) :=
  from_file_replace_mode_empty_regexp {} Printer.noColor rfl rfl

end Rnr
